import Mathlib

/-!
Shallow embedding of the settings-serialization layer in
`src/requests/custom/source_settings.rs` (obws). Each payload struct is
translated to a Lean structure and its serde serialization to a function
producing a flat list of key/value pairs. The helper encoders referenced
via `crate::requests::ser` and `crate::common::FontFlags` are not part of
the sources at hand; those definitions are modelled from the spec and say
so in their doc comments.
-/

namespace Obws

/-- A 64-bit float value, represented by its raw bit pattern. The
serializers never compute with these values, they only pass them through
unchanged, so the bit pattern is all the embedding needs. -/
structure F64 where
  bits : Nat
deriving DecidableEq

/-- Target of serialization: a JSON-like value as produced by serde for
these payloads (strings, unsigned and signed integers, booleans, floats,
arrays, nested objects). -/
inductive Value where
  | str (s : String)
  | nat (n : Nat)
  | int (i : Int)
  | bool (b : Bool)
  | f64 (x : F64)
  | arr (xs : List Value)
  | obj (fields : List (String × Value))

/-- An RGBA color with four unsigned 8-bit channels (the rgb crate's
`RGBA8`). -/
structure RGBA8 where
  r : Fin 256
  g : Fin 256
  b : Fin 256
  a : Fin 256
deriving DecidableEq

/-- Modelled from the spec: `ser::rgba8_inverse` (declared in
`crate::requests::ser`, not among the sources at hand). Per the spec's
color-encoder section the output is the same 4 bytes with channel order
inverted end-to-end, so RGBA becomes ABGR at the channel level. -/
def rgba8_inverse (c : RGBA8) : RGBA8 :=
  { r := c.a, g := c.b, b := c.g, a := c.r }

/-- Pack four 8-bit channels into a single 32-bit number, first channel in
the most significant byte. -/
def packRGBA (c : RGBA8) : Nat :=
  ((c.r.val * 256 + c.g.val) * 256 + c.b.val) * 256 + c.a.val

/-- Wire value of a color-bearing field: the channel-reversed color packed
as one unsigned number. -/
def colorValue (c : RGBA8) : Value :=
  .nat (packRGBA (rgba8_inverse c))

/-- A chrono-style duration, stored as a signed count of nanoseconds. -/
structure Duration where
  nanos : Int
deriving DecidableEq

/-- Duration of a whole number of seconds. -/
def Duration.seconds (n : Int) : Duration :=
  ⟨n * 1000000000⟩

/-- Duration of a whole number of milliseconds. -/
def Duration.milliseconds (n : Int) : Duration :=
  ⟨n * 1000000⟩

/-- Modelled from the spec: `ser::duration_millis` (declared in
`crate::requests::ser`, not among the sources at hand). Per the spec's
duration-encoder section it emits a plain integer count of whole
milliseconds, truncating to millisecond granularity with no clamping or
validation; truncation toward zero matches chrono's millisecond count. -/
def duration_millis (d : Duration) : Int :=
  Int.tdiv d.nanos 1000000

/-- Modelled from the spec: `crate::common::FontFlags` (not among the
sources at hand): a set of four independently combinable style flags
(bold, italic, underline, strikeout). -/
structure FontFlags where
  bold : Bool
  italic : Bool
  underline : Bool
  strikeout : Bool
deriving DecidableEq, Fintype

/-- The empty flag set. -/
def FontFlags.empty : FontFlags :=
  ⟨false, false, false, false⟩

/-- Union of two flag sets. -/
def FontFlags.union (f g : FontFlags) : FontFlags :=
  ⟨f.bold || g.bold, f.italic || g.italic, f.underline || g.underline,
    f.strikeout || g.strikeout⟩

/-- Two flag sets are disjoint when no flag is present in both. -/
def FontFlags.disjoint (f g : FontFlags) : Bool :=
  !(f.bold && g.bold) && !(f.italic && g.italic) &&
    !(f.underline && g.underline) && !(f.strikeout && g.strikeout)

/-- Modelled from the spec: `ser::bitflags_u8` (declared in
`crate::requests::ser`, not among the sources at hand). Per the spec's
flag-set encoder section it packs the flag set into a single 8-bit
unsigned integer, each flag contributing its assigned bit by bitwise OR
(bold 1, italic 2, underline 4, strikeout 8). -/
def bitflags_u8 (f : FontFlags) : Nat :=
  (cond f.bold 1 0) ||| (cond f.italic 2 0) |||
    (cond f.underline 4 0) ||| (cond f.strikeout 8 0)

/-- `BrowserSource` payload; `local_file` is a path, kept as a string. -/
structure BrowserSource where
  is_local_file : Bool
  local_file : String
  url : String
  width : Nat
  height : Nat
  fps_custom : Bool
  fps : Nat
  reroute_audio : Bool
  css : String
  shutdown : Bool
  restart_when_active : Bool

/-- The `Default` impl of `BrowserSource`. -/
def BrowserSource.default : BrowserSource where
  is_local_file := false
  local_file := ""
  url := "https://obsproject.com/browser-source"
  width := 800
  height := 600
  fps_custom := false
  fps := 30
  reroute_audio := false
  css := "body \x7b background-color: rgba(0, 0, 0, 0); margin: 0px auto; overflow: hidden; \x7d"
  shutdown := false
  restart_when_active := false

/-- Serde serialization of `BrowserSource` (derived, field order as
declared). -/
def serializeBrowserSource (b : BrowserSource) : List (String × Value) :=
  [("is_local_file", .bool b.is_local_file),
   ("local_file", .str b.local_file),
   ("url", .str b.url),
   ("width", .nat b.width),
   ("height", .nat b.height),
   ("fps_custom", .bool b.fps_custom),
   ("fps", .nat b.fps),
   ("reroute_audio", .bool b.reroute_audio),
   ("css", .str b.css),
   ("shutdown", .bool b.shutdown),
   ("restart_when_active", .bool b.restart_when_active)]

/-- `ColorSourceV3` payload. -/
structure ColorSourceV3 where
  color : RGBA8
  width : Nat
  height : Nat

/-- Serde serialization of `ColorSourceV3`; the `color` field carries the
`serialize_with = ser::rgba8_inverse` attribute. -/
def serializeColorSourceV3 (s : ColorSourceV3) : List (String × Value) :=
  [("color", colorValue s.color),
   ("width", .nat s.width),
   ("height", .nat s.height)]

/-- The `CropMode` tagged union (sub-entity of display capture). -/
inductive CropMode where
  | None : CropMode
  | Manual (left top right bottom : F64) : CropMode
  | ToWindow (owner_name window_name : String) (window : Nat)
      (show_empty_names : Bool) : CropMode
  | ToWindowAndManual (owner_name window_name : String) (window : Nat)
      (show_empty_names : Bool) (left top right bottom : F64) : CropMode

/-- The manual `Serialize` impl of `CropMode`: a numeric discriminant
under `crop_mode` plus the variant's fields, with the rectangle fields
renamed per variant. -/
def cropModeFields : CropMode → List (String × Value)
  | .None => [("crop_mode", .nat 0)]
  | .Manual left top right bottom =>
      [("crop_mode", .nat 1),
       ("manual.origin.x", .f64 left),
       ("manual.origin.y", .f64 top),
       ("manual.size.width", .f64 right),
       ("manual.size.height", .f64 bottom)]
  | .ToWindow owner_name window_name window show_empty_names =>
      [("crop_mode", .nat 2),
       ("owner_name", .str owner_name),
       ("window_name", .str window_name),
       ("window", .nat window),
       ("show_empty_names", .bool show_empty_names)]
  | .ToWindowAndManual owner_name window_name window show_empty_names
      left top right bottom =>
      [("crop_mode", .nat 3),
       ("owner_name", .str owner_name),
       ("window_name", .str window_name),
       ("window", .nat window),
       ("show_empty_names", .bool show_empty_names),
       ("window.origin.x", .f64 left),
       ("window.origin.y", .f64 top),
       ("window.size.width", .f64 right),
       ("window.size.height", .f64 bottom)]

/-- `DisplayCapture` payload; `crop_mode` carries `#[serde(flatten)]`. -/
structure DisplayCapture where
  display : Nat
  show_cursor : Bool
  crop_mode : CropMode

/-- Serde serialization of `DisplayCapture`: its own fields followed by
the crop-mode fields inlined at the same level (the `flatten`
attribute). -/
def serializeDisplayCapture (d : DisplayCapture) : List (String × Value) :=
  [("display", .nat d.display),
   ("show_cursor", .bool d.show_cursor)] ++ cropModeFields d.crop_mode

/-- Slideshow playback behavior; serde renames variants to snake_case. -/
inductive PlaybackBehavior where
  | AlwaysPlay
  | StopRestart
  | PauseUnpause

/-- The snake_case wire string of a `PlaybackBehavior` variant. -/
def playbackBehaviorString : PlaybackBehavior → String
  | .AlwaysPlay => "always_play"
  | .StopRestart => "stop_restart"
  | .PauseUnpause => "pause_unpause"

/-- Slide mode; serde renames variants to snake_case. -/
inductive SlideMode where
  | ModeAuto
  | ModeManual

/-- The snake_case wire string of a `SlideMode` variant. -/
def slideModeString : SlideMode → String
  | .ModeAuto => "mode_auto"
  | .ModeManual => "mode_manual"

/-- Slideshow transition; serde renames variants to snake_case. -/
inductive Transition where
  | Cut
  | Fade
  | Swipe
  | Slide

/-- The snake_case wire string of a `Transition` variant. -/
def transitionString : Transition → String
  | .Cut => "cut"
  | .Fade => "fade"
  | .Swipe => "swipe"
  | .Slide => "slide"

set_option linter.dupNamespace false in
/-- Bounding size / aspect ratio; serialized through its `String`
conversion (`#[serde(into = "String")]`). -/
inductive CustomSize where
  | Automatic
  | SixteenToNine
  | SixteenToTen
  | FourToThree
  | OneToOne
  | CustomRatio (w h : Nat)
  | CustomSize (w h : Nat)

/-- The `From<CustomSize> for String` conversion: fixed literals for the
presets, `w:h` for a custom ratio, `wxh` for a custom absolute size. -/
def customSizeString : CustomSize → String
  | .Automatic => "Automatic"
  | .SixteenToNine => "16:9"
  | .SixteenToTen => "16:10"
  | .FourToThree => "4:3"
  | .OneToOne => "1:1"
  | .CustomRatio w h => toString w ++ ":" ++ toString h
  | .CustomSize w h => toString w ++ "x" ++ toString h

/-- One slideshow/playlist file entry; the path is kept as a string. -/
structure SlideshowFile where
  value : String
  hidden : Bool
  selected : Bool

/-- Serde serialization of `SlideshowFile`. -/
def serializeSlideshowFile (f : SlideshowFile) : List (String × Value) :=
  [("value", .str f.value),
   ("hidden", .bool f.hidden),
   ("selected", .bool f.selected)]

/-- `Slideshow` payload; the borrowed file slice is kept as a list. -/
structure Slideshow where
  playback_behavior : PlaybackBehavior
  slide_mode : SlideMode
  transition : Transition
  slide_time : Duration
  transition_speed : Duration
  loop_ : Bool
  hide : Bool
  randomize : Bool
  use_custom_size : CustomSize
  files : List SlideshowFile

/-- Serde serialization of `Slideshow`: the two duration fields carry
`serialize_with = ser::duration_millis` and `loop_` carries
`#[serde(rename = "loop")]`. -/
def serializeSlideshow (s : Slideshow) : List (String × Value) :=
  [("playback_behavior", .str (playbackBehaviorString s.playback_behavior)),
   ("slide_mode", .str (slideModeString s.slide_mode)),
   ("transition", .str (transitionString s.transition)),
   ("slide_time", .int (duration_millis s.slide_time)),
   ("transition_speed", .int (duration_millis s.transition_speed)),
   ("loop", .bool s.loop_),
   ("hide", .bool s.hide),
   ("randomize", .bool s.randomize),
   ("use_custom_size", .str (customSizeString s.use_custom_size)),
   ("files", .arr (s.files.map fun f => .obj (serializeSlideshowFile f)))]

/-- Font settings held by the text source. -/
structure Font where
  face : String
  flags : FontFlags
  size : Nat
  style : String

/-- Serde serialization of `Font`; the `flags` field carries
`serialize_with = ser::bitflags_u8`. -/
def serializeFont (f : Font) : List (String × Value) :=
  [("face", .str f.face),
   ("flags", .nat (bitflags_u8 f.flags)),
   ("size", .nat f.size),
   ("style", .str f.style)]

/-- `TextFt2SourceV2` payload; paths are kept as strings. -/
structure TextFt2SourceV2 where
  antialiasing : Bool
  color1 : RGBA8
  color2 : RGBA8
  custom_width : Nat
  drop_shadow : Bool
  font : Font
  from_file : Bool
  log_lines : Nat
  log_mode : Bool
  outline : Bool
  text : String
  text_file : String
  word_wrap : Bool

/-- Serde serialization of `TextFt2SourceV2`; `color1` and `color2` carry
`serialize_with = ser::rgba8_inverse` and `font` nests as an object. -/
def serializeTextFt2SourceV2 (t : TextFt2SourceV2) : List (String × Value) :=
  [("antialiasing", .bool t.antialiasing),
   ("color1", colorValue t.color1),
   ("color2", colorValue t.color2),
   ("custom_width", .nat t.custom_width),
   ("drop_shadow", .bool t.drop_shadow),
   ("font", .obj (serializeFont t.font)),
   ("from_file", .bool t.from_file),
   ("log_lines", .nat t.log_lines),
   ("log_mode", .bool t.log_mode),
   ("outline", .bool t.outline),
   ("text", .str t.text),
   ("text_file", .str t.text_file),
   ("word_wrap", .bool t.word_wrap)]

/-- `VlcSource` payload; the borrowed playlist slice is kept as a list. -/
structure VlcSource where
  loop_ : Bool
  shuffle : Bool
  playback_behavior : PlaybackBehavior
  playlist : List SlideshowFile
  network_caching : Duration
  track : Nat
  subtitle_enable : Bool
  subtitle : Nat

/-- Serde serialization of `VlcSource`: `loop_` carries
`#[serde(rename = "bool")]` and `network_caching` carries
`serialize_with = ser::duration_millis`. -/
def serializeVlcSource (v : VlcSource) : List (String × Value) :=
  [("bool", .bool v.loop_),
   ("shuffle", .bool v.shuffle),
   ("playback_behavior", .str (playbackBehaviorString v.playback_behavior)),
   ("playlist", .arr (v.playlist.map fun f => .obj (serializeSlideshowFile f))),
   ("network_caching", .int (duration_millis v.network_caching)),
   ("track", .nat v.track),
   ("subtitle_enable", .bool v.subtitle_enable),
   ("subtitle", .nat v.subtitle)]

/-- Color space of an AV capture input, with signed wire codes
(`Serialize_repr` over `i8`). -/
inductive ColorSpace where
  | Auto
  | Rec601
  | Rec709

/-- The signed integer wire code of a `ColorSpace` variant. -/
def colorSpaceCode : ColorSpace → Int
  | .Auto => -1
  | .Rec601 => 1
  | .Rec709 => 2

/-- A rational frame rate. -/
structure FrameRate where
  numerator : Nat
  denominator : Nat

/-- A width/height resolution pair. -/
structure Resolution where
  width : Nat
  height : Nat
deriving DecidableEq

/-- Modelled from the spec: the inner JSON serialization performed by
`ser::json_string` (declared in `crate::requests::ser`, not among the
sources at hand) on a `Resolution`: the pair's own key/value document in
textual form, as serde_json renders it. -/
def resolutionJson (r : Resolution) : String :=
  "\x7b\"width\":" ++ toString r.width ++ ",\"height\":" ++ toString r.height ++ "\x7d"

/-- `AvCaptureInput` payload. -/
structure AvCaptureInput where
  buffering : Bool
  color_space : ColorSpace
  device : String
  device_name : String
  frame_rate : FrameRate
  input_format : Nat
  resolution : Resolution
  use_preset : Bool

/-- The field list of a serialized `AvCaptureInput`, given the text `s`
the embedded-structure encoder produced for the resolution field. -/
def avFieldsWith (s : String) (a : AvCaptureInput) : List (String × Value) :=
  [("buffering", .bool a.buffering),
   ("color_space", .int (colorSpaceCode a.color_space)),
   ("device", .str a.device),
   ("device_name", .str a.device_name),
   ("frame_rate", .obj [("numerator", .nat a.frame_rate.numerator),
     ("denominator", .nat a.frame_rate.denominator)]),
   ("input_format", .nat a.input_format),
   ("resolution", .str s),
   ("use_preset", .bool a.use_preset)]

/-- Serde serialization of `AvCaptureInput`, parameterized by the inner
encoder for the resolution field: `ser::json_string` propagates an inner
serialization failure with the `?` operator, so a failing inner encoding
aborts the whole payload's serialization. -/
def serializeAvCaptureInputWith (enc : Resolution → Except String String)
    (a : AvCaptureInput) : Except String (List (String × Value)) :=
  match enc a.resolution with
  | .error e => .error e
  | .ok s => .ok (avFieldsWith s a)

/-- The inner encoder actually used: plain JSON text of the resolution
pair, which never fails. -/
def resolutionJsonE (r : Resolution) : Except String String :=
  .ok (resolutionJson r)

/-- The field list of a serialized `AvCaptureInput` with the real inner
encoder. -/
def avFields (a : AvCaptureInput) : List (String × Value) :=
  avFieldsWith (resolutionJson a.resolution) a

/-- Serde serialization of `AvCaptureInput` with the real inner encoder. -/
def serializeAvCaptureInput (a : AvCaptureInput) :
    Except String (List (String × Value)) :=
  serializeAvCaptureInputWith resolutionJsonE a

/-- Consume an expected literal from the front of a character list,
returning the rest, or `none` when the input does not start with it. -/
def dropLit (lit cs : List Char) : Option (List Char) :=
  if cs.take lit.length = lit then some (cs.drop lit.length) else none

/-- Decimal digits to a number. -/
def digitsToNat (ds : List Char) : Nat :=
  ds.foldl (fun acc c => acc * 10 + (c.toNat - 48)) 0

/-- An independent parser for the embedded resolution document: accepts
exactly a JSON object of the form produced for a width/height pair and
returns the two numbers. -/
def parseResolution (s : String) : Option Resolution :=
  match dropLit (("\x7b\"width\":").toList) s.toList with
  | none => none
  | some cs =>
    let ds := cs.takeWhile Char.isDigit
    let cs := cs.dropWhile Char.isDigit
    if ds = [] then none
    else
      match dropLit ((",\"height\":").toList) cs with
      | none => none
      | some cs =>
        let ds2 := cs.takeWhile Char.isDigit
        let cs := cs.dropWhile Char.isDigit
        if ds2 = [] then none
        else if cs = ("\x7d").toList then
          some ⟨digitsToNat ds, digitsToNat ds2⟩
        else none

/-- Concrete payload instances used by witness theorems. -/
def avExample : AvCaptureInput where
  buffering := false
  color_space := .Auto
  device := ""
  device_name := ""
  frame_rate := ⟨30, 1⟩
  input_format := 0
  resolution := ⟨1920, 1080⟩
  use_preset := false

/-- A browser source with only the URL overridden from the defaults. -/
def browserExample : BrowserSource :=
  { BrowserSource.default with url := "https://example.com" }

/-- An inner encoder that always fails, exercising the failure path of the
embedded-structure encoding. -/
def failingEnc : Resolution → Except String String :=
  fun _ => .error (msg)
where msg : String := "inner resolution serialization failed"

/-- Truncating division of natural numbers embedded in `Int` agrees with
natural division. -/
theorem tdiv_ofNat_ofNat (m k : Nat) :
    Int.tdiv (Int.ofNat m) (Int.ofNat k) = Int.ofNat (m / k) := rfl

/-- C1: each of the four `CropMode` variants serializes to exactly the
discriminant of the spec's table plus exactly the variant's listed fields:
tag 0 alone for `None`; tag 1 with the rectangle under the
`manual.origin.*` / `manual.size.*` names for `Manual`; tag 2 with the
window identity fields for `ToWindow`; tag 3 with the window identity
fields and the same rectangle under the `window.origin.*` /
`window.size.*` names for `ToWindowAndManual` — no fields from any other
variant. -/
theorem cropMode_variant_fields :
    cropModeFields .None = [("crop_mode", .nat 0)] ∧
    (∀ left top right bottom : F64,
      cropModeFields (.Manual left top right bottom) =
        [("crop_mode", .nat 1),
         ("manual.origin.x", .f64 left),
         ("manual.origin.y", .f64 top),
         ("manual.size.width", .f64 right),
         ("manual.size.height", .f64 bottom)]) ∧
    (∀ (ow wn : String) (w : Nat) (se : Bool),
      cropModeFields (.ToWindow ow wn w se) =
        [("crop_mode", .nat 2),
         ("owner_name", .str ow),
         ("window_name", .str wn),
         ("window", .nat w),
         ("show_empty_names", .bool se)]) ∧
    (∀ (ow wn : String) (w : Nat) (se : Bool) (left top right bottom : F64),
      cropModeFields (.ToWindowAndManual ow wn w se left top right bottom) =
        [("crop_mode", .nat 3),
         ("owner_name", .str ow),
         ("window_name", .str wn),
         ("window", .nat w),
         ("show_empty_names", .bool se),
         ("window.origin.x", .f64 left),
         ("window.origin.y", .f64 top),
         ("window.size.width", .f64 right),
         ("window.size.height", .f64 bottom)]) :=
  ⟨rfl, fun _ _ _ _ => rfl, fun _ _ _ _ => rfl, fun _ _ _ _ _ _ _ _ => rfl⟩

/-- C2: a serialized `DisplayCapture` is one flat object: the fields
produced by the crop mode appear as direct siblings of the payload's own
`display` and `show_cursor` fields, not nested under a sub-object key. -/
theorem displayCapture_flat_siblings (d : DisplayCapture) :
    serializeDisplayCapture d =
      [("display", .nat d.display), ("show_cursor", .bool d.show_cursor)] ++
        cropModeFields d.crop_mode := rfl

/-- C3: the color encoder reverses the 4 channel bytes end-to-end, it is a
total function, applying the reversal twice returns the original color for
every one of the 2^32 values, and it is applied to every color-bearing
field: the color-source fill color and the text source's `color1` and
`color2`. -/
theorem rgba_reversal_involution_and_usage :
    (∀ c : RGBA8, rgba8_inverse (rgba8_inverse c) = c) ∧
    (∀ s : ColorSourceV3,
      ("color", colorValue s.color) ∈ serializeColorSourceV3 s) ∧
    (∀ t : TextFt2SourceV2,
      ("color1", colorValue t.color1) ∈ serializeTextFt2SourceV2 t ∧
      ("color2", colorValue t.color2) ∈ serializeTextFt2SourceV2 t) := by
  refine ⟨fun c => rfl, fun s => ?_, fun t => ⟨?_, ?_⟩⟩ <;>
    simp [serializeColorSourceV3, serializeTextFt2SourceV2]

/-- C4: for every nonnegative duration the millisecond encoder returns the
whole-millisecond truncation as a plain integer, it is monotonic
non-decreasing, it is applied unconditionally to `slide_time` and
`network_caching`, and it performs no clamping: 40 ms (below the 50 ms
slide-time minimum) and 10 ms (below the 100 ms network-caching minimum)
pass through unchanged. -/
theorem duration_millis_truncation_monotone_noclamp :
    (∀ d : Duration, 0 ≤ d.nanos →
      duration_millis d = Int.ofNat (d.nanos.toNat / 1000000)) ∧
    (∀ d e : Duration, 0 ≤ d.nanos → d.nanos ≤ e.nanos →
      duration_millis d ≤ duration_millis e) ∧
    (∀ s : Slideshow,
      ("slide_time", .int (duration_millis s.slide_time)) ∈ serializeSlideshow s) ∧
    (∀ v : VlcSource,
      ("network_caching", .int (duration_millis v.network_caching)) ∈
        serializeVlcSource v) ∧
    duration_millis (Duration.milliseconds 40) = 40 ∧
    duration_millis (Duration.milliseconds 10) = 10 := by
  refine ⟨?_, ?_, ?_, ?_, by decide, by decide⟩
  · intro d h
    obtain ⟨n, hn⟩ := Int.eq_ofNat_of_zero_le h
    simp only [duration_millis, hn, Int.toNat_ofNat]
    exact tdiv_ofNat_ofNat n 1000000
  · intro d e hd hde
    obtain ⟨n, hn⟩ := Int.eq_ofNat_of_zero_le hd
    obtain ⟨m, hm⟩ := Int.eq_ofNat_of_zero_le (le_trans hd hde)
    rw [hn, hm] at hde
    simp only [duration_millis, hn, hm, tdiv_ofNat_ofNat]
    exact Int.ofNat_le.mpr (Nat.div_le_div_right (Int.ofNat_le.mp hde))
  · intro s
    simp [serializeSlideshow]
  · intro v
    simp [serializeVlcSource]

/-- Witness for C4 at concrete inputs: the truncation equation at 8
seconds and monotonicity between 40 ms and 8 s. -/
theorem duration_millis_truncation_monotone_noclamp_witness :
    duration_millis (Duration.seconds 8) =
      Int.ofNat ((Duration.seconds 8).nanos.toNat / 1000000) ∧
    duration_millis (Duration.milliseconds 40) ≤
      duration_millis (Duration.seconds 8) :=
  ⟨duration_millis_truncation_monotone_noclamp.1 (Duration.seconds 8) (by decide),
   duration_millis_truncation_monotone_noclamp.2.1 (Duration.milliseconds 40)
     (Duration.seconds 8) (by decide) (by decide)⟩

/-- C5: the font flag-set encoder maps a flag set to a single unsigned
integer below 256 by bitwise OR of assigned bits: for disjoint sets the
encoding of the union is the OR of the encodings, the empty set encodes as
zero, the encoding is order-independent, and it is the encoder applied to
the `flags` field of a serialized `Font`. -/
theorem bitflags_or_disjoint_union :
    (∀ f g : FontFlags, FontFlags.disjoint f g = true →
      bitflags_u8 (FontFlags.union f g) = bitflags_u8 f ||| bitflags_u8 g) ∧
    bitflags_u8 FontFlags.empty = 0 ∧
    (∀ f g : FontFlags,
      bitflags_u8 (FontFlags.union f g) = bitflags_u8 (FontFlags.union g f)) ∧
    (∀ f : FontFlags, bitflags_u8 f < 256) ∧
    (∀ fo : Font, ("flags", .nat (bitflags_u8 fo.flags)) ∈ serializeFont fo) := by
  refine ⟨by decide, by decide, by decide, by decide, ?_⟩
  intro fo
  simp [serializeFont]

/-- Witness for C5: the bold-only and italic-only sets are disjoint and
the encoder turns their union into the OR of their encodings. -/
theorem bitflags_or_disjoint_union_witness :
    bitflags_u8 (FontFlags.union ⟨true, false, false, false⟩
        ⟨false, true, false, false⟩) =
      bitflags_u8 ⟨true, false, false, false⟩ |||
        bitflags_u8 ⟨false, true, false, false⟩ :=
  bitflags_or_disjoint_union.1 ⟨true, false, false, false⟩
    ⟨false, true, false, false⟩ (by decide)

/-- C6: an `AvCaptureInput` whose resolution is 1920 x 1080 serializes
successfully, emits the resolution field as a string value, and that
string independently parsed as a structured document yields an object with
width 1920 and height 1080. -/
theorem avCapture_resolution_embedded_json (a : AvCaptureInput)
    (h : a.resolution = ⟨1920, 1080⟩) :
    serializeAvCaptureInput a = .ok (avFields a) ∧
    ("resolution", .str (resolutionJson a.resolution)) ∈ avFields a ∧
    parseResolution (resolutionJson a.resolution) = some ⟨1920, 1080⟩ := by
  refine ⟨rfl, ?_, ?_⟩
  · simp [avFields, avFieldsWith]
  · rw [h]
    decide

/-- Witness for C6: the concrete 1920 x 1080 capture input. -/
theorem avCapture_resolution_embedded_json_witness :
    serializeAvCaptureInput avExample = .ok (avFields avExample) ∧
    ("resolution", .str (resolutionJson avExample.resolution)) ∈ avFields avExample ∧
    parseResolution (resolutionJson avExample.resolution) = some ⟨1920, 1080⟩ :=
  avCapture_resolution_embedded_json avExample rfl

/-- C7: a browser source built from the defaults with only the URL
overridden serializes with width 800, height 600, fps 30, fps_custom
false and shutdown false, and carries the overridden URL. -/
theorem browserSource_default_url_override :
    ("width", .nat 800) ∈ serializeBrowserSource browserExample ∧
    ("height", .nat 600) ∈ serializeBrowserSource browserExample ∧
    ("fps", .nat 30) ∈ serializeBrowserSource browserExample ∧
    ("fps_custom", .bool false) ∈ serializeBrowserSource browserExample ∧
    ("shutdown", .bool false) ∈ serializeBrowserSource browserExample ∧
    ("url", .str "https://example.com") ∈ serializeBrowserSource browserExample := by
  refine ⟨?_, ?_, ?_, ?_, ?_, ?_⟩ <;>
    simp [serializeBrowserSource, browserExample, BrowserSource.default]

/-- C8: the five fixed presets serialize to their exact literal strings,
a custom ratio formats its two integers with a colon separator, and a
custom absolute size formats them with an `x` separator. -/
theorem customSize_formatting :
    customSizeString .Automatic = "Automatic" ∧
    customSizeString .SixteenToNine = "16:9" ∧
    customSizeString .SixteenToTen = "16:10" ∧
    customSizeString .FourToThree = "4:3" ∧
    customSizeString .OneToOne = "1:1" ∧
    (∀ w h : Nat,
      customSizeString (.CustomRatio w h) = toString w ++ ":" ++ toString h) ∧
    (∀ w h : Nat,
      customSizeString (.CustomSize w h) = toString w ++ "x" ++ toString h) :=
  ⟨rfl, rfl, rfl, rfl, rfl, fun _ _ => rfl, fun _ _ => rfl⟩

/-- C9: when the inner encoding of the embedded resolution value fails,
the failure propagates as the single terminal error of the whole
payload's serialization with no partial output, and when the inner
encoding succeeds the whole payload serializes — the inner failure is the
only failure mode. -/
theorem avCapture_inner_failure_propagates :
    (∀ (enc : Resolution → Except String String) (a : AvCaptureInput)
      (e : String), enc a.resolution = .error e →
        serializeAvCaptureInputWith enc a = .error e) ∧
    (∀ (enc : Resolution → Except String String) (a : AvCaptureInput)
      (s : String), enc a.resolution = .ok s →
        serializeAvCaptureInputWith enc a = .ok (avFieldsWith s a)) := by
  constructor <;> · intro enc a x h; simp [serializeAvCaptureInputWith, h]

/-- Witness for C9: a failing inner encoder aborts the whole payload with
its error, and the real inner encoder succeeds. -/
theorem avCapture_inner_failure_propagates_witness :
    serializeAvCaptureInputWith failingEnc avExample = .error (failingEnc.msg) ∧
    serializeAvCaptureInputWith resolutionJsonE avExample =
      .ok (avFieldsWith (resolutionJson avExample.resolution) avExample) :=
  ⟨avCapture_inner_failure_propagates.1 failingEnc avExample (failingEnc.msg) rfl,
   avCapture_inner_failure_propagates.2 resolutionJsonE avExample
     (resolutionJson avExample.resolution) rfl⟩

/-- C10: every serialized `VlcSource` emits its loop-playlist flag under
the field name `bool` — with no `loop` or `loop_` key anywhere in the
payload — whereas every serialized `Slideshow` emits its loop flag under
the field name `loop`. -/
theorem vlc_loop_serializes_as_bool :
    (∀ v : VlcSource,
      ("bool", .bool v.loop_) ∈ serializeVlcSource v ∧
      "loop" ∉ (serializeVlcSource v).map Prod.fst ∧
      "loop_" ∉ (serializeVlcSource v).map Prod.fst) ∧
    (∀ s : Slideshow, ("loop", .bool s.loop_) ∈ serializeSlideshow s) := by
  constructor
  · intro v
    refine ⟨?_, ?_, ?_⟩ <;> simp [serializeVlcSource]
  · intro s
    simp [serializeSlideshow]

end Obws
